import Mathlib

/-!
Verification of the settings routes of lute-v3 (`src/lute/settings/routes.py`),
as a shallow embedding in Lean 4.

Modelling choices, shared by all definitions below:

* The settings store (`UserSetting`) backing `get_value` / `set_value` is not
  part of the observed source slice; following the spec ("never fails for a
  known key", "persists value under key, overwriting any prior value") it is
  modelled as a total map `String → V` for an arbitrary value type `V`, and a
  failing `set_value` is modelled by an oracle `raises : String → V → Option Exc`
  telling, per key/value pair, whether the underlying write raises an
  exception (raising before persisting, so a failed write leaves the map
  unchanged).
* Python exceptions are modelled by `Exc` (type name and description); a
  handler formatting `f"{type(e).__name__}: {str(e)}"` becomes `excMessage`.
* Durability (`db.session.commit()`) and the individual writes are recorded in
  an event trace `List (Ev V)` so that ordering and multiplicity of flushes
  can be stated.
* An operation whose body can let an exception escape the route handler
  returns `Except Exc …`; `Except.error e` means the exception `e` propagated
  out of the handler.
-/

namespace LuteSettings

/-- A Python exception, reduced to what the routes observe: the type name
(`type(e).__name__`) and the description (`str(e)`). -/
structure Exc where
  kind : String
  descr : String
deriving DecidableEq, Repr

/-- The message built by the exception handlers in `test_parse` and
`set_key_value`: `f"{type(e).__name__}: {str(e)}"`. -/
def excMessage (e : Exc) : String := e.kind ++ ": " ++ e.descr

/-- The settings store, a total map from setting key to value
(see the modelling note in the file header). -/
abbrev Store (V : Type) : Type := String → V

/-- `UserSetting.get_value(key)`: look the key up in the store. -/
def get_value {V : Type} (s : Store V) (k : String) : V := s k

/-- The state change performed by a successful `UserSetting.set_value(key, v)`:
the store maps `key` to `v` and every other key to its previous value. -/
def set_value {V : Type} (s : Store V) (k : String) (v : V) : Store V :=
  fun q => if q = k then v else s q

/-- An observable effect on the persistence collaborator: a staged write of a
key/value pair, or a durable flush (`db.session.commit()`). -/
inductive Ev (V : Type) where
  | write (key : String) (v : V)
  | flush
deriving DecidableEq, Repr

/-- Whether an event is the durable flush. -/
def Ev.isFlush {V : Type} : Ev V → Bool
  | .flush => true
  | _ => false

/-- The JSON result payload the routes return:
`{"result": "success", "message": m}` or `{"result": "failure", "message": m}`. -/
inductive RouteResult where
  | success (message : String)
  | failure (message : String)
deriving DecidableEq, Repr

/-- A parsed token as `test_parse` observes it: only its surface text
(the `token` attribute read by `tok.token`). -/
structure Token where
  token : String
deriving DecidableEq, Repr

/-- Route `set_key_value(key, value)` (routes.py lines 149-161):
read `old_value = UserSetting.get_value(key)`; try `set_value(key, value)` and
report success "OK", on an exception `e` restore `set_value(key, old_value)`
and report failure `excMessage e`; then `db.session.commit()`.
If the restoring `set_value` itself raises, the exception escapes the handler
(`Except.error`) and no commit happens. -/
def set_key_value {V : Type} (raises : String → V → Option Exc) (s : Store V)
    (key : String) (value : V) : Except Exc (Store V × List (Ev V) × RouteResult) :=
  match raises key value with
  | none =>
      Except.ok (set_value s key value, [Ev.write key value, Ev.flush],
        RouteResult.success "OK")
  | some e =>
      match raises key (get_value s key) with
      | none =>
          Except.ok (set_value s key (get_value s key),
            [Ev.write key (get_value s key), Ev.flush],
            RouteResult.failure (excMessage e))
      | some e2 => Except.error e2

/-- The sentence `test_parse` parses: `src = "私は元気です"`. -/
def src_sentence : String := "私は元気です"

/-- The `try:` block of route `test_parse` (routes.py lines 130-142):
tentatively `set_value("mecab_path", mecab_path)`, run the probe
(`JapaneseParser().get_parsed_tokens(src, lang)`, modelled as a caller-supplied
function of the tentative store since the parser construction and parse are
outside the observed slice), filter out tokens whose text is `"¶"`, and build
the success message; any exception from the tentative set or the probe is
caught and becomes a failure result. Returns the store, the staged-write
trace, and the result at the end of the block. -/
def try_block {V : Type} (raises : String → V → Option Exc)
    (probe : Store V → Except Exc (List Token)) (s : Store V) (mecab_path : V) :
    Store V × List (Ev V) × RouteResult :=
  match raises "mecab_path" mecab_path with
  | some e => (s, [], RouteResult.failure (excMessage e))
  | none =>
      match probe (set_value s "mecab_path" mecab_path) with
      | Except.error e =>
          (set_value s "mecab_path" mecab_path, [Ev.write "mecab_path" mecab_path],
            RouteResult.failure (excMessage e))
      | Except.ok toks =>
          (set_value s "mecab_path" mecab_path, [Ev.write "mecab_path" mecab_path],
            RouteResult.success (src_sentence ++ " parsed to ["
              ++ String.intercalate ", "
                  ((toks.filter (fun t => t.token != "¶")).map Token.token)
              ++ "]"))

/-- Route `test_parse` (routes.py lines 118-146): read
`old_setting = get_value("mecab_path")`, run the `try:` block (`try_block`),
then in `finally:` always `set_value("mecab_path", old_setting)` and return the
result of the block. If the restoring write raises, that exception escapes the
handler (`Except.error`). The route performs no `db.session.commit()`. -/
def test_parse {V : Type} (raises : String → V → Option Exc)
    (probe : Store V → Except Exc (List Token)) (s : Store V) (mecab_path : V) :
    Except Exc (Store V × List (Ev V) × RouteResult) :=
  match raises "mecab_path" (get_value s "mecab_path") with
  | some e2 => Except.error e2
  | none =>
      Except.ok
        (set_value (try_block raises probe s mecab_path).1 "mecab_path"
          (get_value s "mecab_path"),
         (try_block raises probe s mecab_path).2.1
           ++ [Ev.write "mecab_path" (get_value s "mecab_path")],
         (try_block raises probe s mecab_path).2.2)

/-- The body of the valid-submit branch of route `edit_settings`
(routes.py lines 97-102): iterate over the form's fields, and for every field
whose id is not `"csrf_token"` and not `"submit"` call
`UserSetting.set_value(field.id, field.data)`; after the loop,
`db.session.commit()`. A raising write lets the exception escape
(`Except.error`) with no commit. `tr` accumulates the staged-write trace. -/
def apply_fields {V : Type} (raises : String → V → Option Exc) :
    List (String × V) → Store V → List (Ev V) → Except Exc (Store V × List (Ev V))
  | [], s, tr => Except.ok (s, tr ++ [Ev.flush])
  | (k, v) :: rest, s, tr =>
      if k = "csrf_token" ∨ k = "submit" then apply_fields raises rest s tr
      else
        match raises k v with
        | some e => Except.error e
        | none => apply_fields raises rest (set_value s k v) (tr ++ [Ev.write k v])

/-- Route `edit_settings`, apply mode (routes.py lines 97-105): the form is the
ordered list of `(field.id, field.data)` pairs that passed validation. -/
def edit_settings_apply {V : Type} (raises : String → V → Option Exc)
    (form : List (String × V)) (s : Store V) : Except Exc (Store V × List (Ev V)) :=
  apply_fields raises form s []

/-- Python's `str.strip()`: the string with whitespace removed from both
ends (written on the character list so that it evaluates by reduction). -/
def pyStrip (s : String) : String :=
  String.mk (((s.data.dropWhile Char.isWhitespace).reverse.dropWhile
    Char.isWhitespace).reverse)

/-- Outcome of a WTForms field validator: return normally, or raise
`ValidationError(msg)`. -/
inductive ValidationResult where
  | ok
  | error (msg : String)
deriving DecidableEq, Repr

/-- `UserSettingsForm.validate_backup_dir` (routes.py lines 64-79). The
filesystem collaborators `os.path.abspath`, `os.path.exists` and
`os.path.isdir` are modelled as caller-supplied functions. `backup_enabled` is
the `backup_enabled.data` flag, `v` the `backup_dir` field's data; Python's
`(v or "").strip()` becomes `pyStrip v`. -/
def validate_backup_dir (abspath : String → String)
    (path_exists is_directory : String → Bool)
    (backup_enabled : Bool) (v : String) : ValidationResult :=
  if backup_enabled = false then ValidationResult.ok
  else if pyStrip v = "" then ValidationResult.error "Backup directory required"
  else if v ≠ abspath v then
    ValidationResult.error
      ("Backup dir must be absolute path.  Did you mean \"" ++ abspath v ++ "\"?")
  else if path_exists v = false then
    ValidationResult.error ("Directory \"" ++ v ++ "\" does not exist.")
  else if is_directory v = false then
    ValidationResult.error ("\"" ++ v ++ "\" is not a directory.")
  else ValidationResult.ok

/-- Modelled from the spec: the `lute.parse.registry` state used by route
`set_parser`. The registry module is not part of the observed source slice;
per spec §4.2 it maps a parser name to a lazily constructed singleton
instance. Only the `"japanese"` entry is reachable from the route, so the
state is that entry (`parser_instances["japanese"]`, `none` when no instance
has been constructed yet), a counter supplying fresh instance identities, and
the current TaggerVariant of each instance identity. -/
structure Registry where
  japanese : Option Nat
  nextId : Nat
  variants : Nat → String

/-- An observable registry effect: constructing the instance with identity
`id` (`get_parser`), or telling instance `id` to switch its internal tagger to
`variant` (`switch_tagger`, which per spec §4.3 rebuilds the internal tagging
engine). -/
inductive PEv where
  | construct (id : Nat)
  | switch (id : Nat) (variant : String)
deriving DecidableEq, Repr

/-- Route `set_parser(unidic_type)` (routes.py lines 164-171): if
`unidic_type == UserSetting.get_value("unidic_types")` return it immediately;
otherwise, if `parser_instances["japanese"]` is falsy (no instance yet),
construct one via `get_parser("japanese")` (modelled from the spec: a fresh
identity is cached under the name), then call
`parser_instances["japanese"].switch_tagger(unidic_type)` on the (now
existing) instance, mutating its variant in place, and return `unidic_type`.
Returns the new registry, the trace of registry effects, and the response. -/
def setParser (s : Store String) (reg : Registry) (unidic_type : String) :
    Registry × List PEv × String :=
  if unidic_type = get_value s "unidic_types" then (reg, [], unidic_type)
  else
    match reg.japanese with
    | some i =>
        ({ reg with variants := fun j => if j = i then unidic_type else reg.variants j },
         [PEv.switch i unidic_type], unidic_type)
    | none =>
        ({ japanese := some reg.nextId, nextId := reg.nextId + 1,
           variants := fun j => if j = reg.nextId then unidic_type else reg.variants j },
         [PEv.construct reg.nextId, PEv.switch reg.nextId unidic_type], unidic_type)

/-! ## Theorems -/

/-- At any key other than `"mecab_path"`, the store at the end of the
`try:` block of `test_parse` agrees with the store before it. -/
lemma try_block_fst_apply {V : Type} (raises : String → V → Option Exc)
    (probe : Store V → Except Exc (List Token)) (s : Store V) (mp : V)
    (k : String) (hk : k ≠ "mecab_path") :
    (try_block raises probe s mp).1 k = s k := by
  unfold try_block
  split
  · rfl
  · split <;> simp [set_value, hk]

/-- C1: whenever the `test_parse` route completes normally, the stored value
of every key afterwards equals its value before the call — the tentative
`mecab_path` write is always rolled back, whichever way the probe went. -/
theorem test_parse_preserves_store {V : Type} (raises : String → V → Option Exc)
    (probe : Store V → Except Exc (List Token)) (s : Store V) (mp : V)
    (s2 : Store V) (tr : List (Ev V)) (r : RouteResult)
    (h : test_parse raises probe s mp = Except.ok (s2, tr, r)) :
    ∀ k, get_value s2 k = get_value s k := by
  intro k
  unfold test_parse at h
  split at h
  · exact absurd h (by simp)
  · simp only [Except.ok.injEq, Prod.mk.injEq] at h
    obtain ⟨h1, _, _⟩ := h
    subst h1
    by_cases hk : k = "mecab_path"
    · subst hk; simp [get_value, set_value]
    · simp [get_value, set_value, hk, try_block_fst_apply raises probe s mp k hk]

/-- A store for witnesses: every key holds `"orig"`. -/
def wStore : Store String := fun _ => "orig"

/-- A write oracle for witnesses: no write ever raises. -/
def wRaises : String → String → Option Exc := fun _ _ => none

/-- A probe for witnesses: parsing succeeds with tokens `私` and `¶`. -/
def wProbe : Store String → Except Exc (List Token) :=
  fun _ => Except.ok [{ token := "私" }, { token := "¶" }]

/-- Witness for C1 at a concrete input: after a completed
`test_parse wRaises wProbe wStore "cand"`, the key `"backup_dir"` still holds
its original value. -/
theorem test_parse_preserves_store_witness :
    get_value (set_value (set_value wStore "mecab_path" "cand") "mecab_path" "orig")
        "backup_dir"
      = get_value wStore "backup_dir" :=
  test_parse_preserves_store wRaises wProbe wStore "cand"
    (set_value (set_value wStore "mecab_path" "cand") "mecab_path" "orig")
    [Ev.write "mecab_path" "cand", Ev.write "mecab_path" "orig"]
    (RouteResult.success (src_sentence ++ " parsed to [私]"))
    rfl "backup_dir"

/-- C2: if the write step of `set_key_value` raises `e` (and the restoring
write goes through), the route restores the old value, returns a failure
result whose message is the error kind and description, and the stored value
of the key afterwards equals the pre-attempt value. -/
theorem set_key_value_rollback_on_failure {V : Type}
    (raises : String → V → Option Exc) (s : Store V) (key : String) (value : V)
    (e : Exc) (hfail : raises key value = some e)
    (hrestore : raises key (get_value s key) = none) :
    set_key_value raises s key value
      = Except.ok (set_value s key (get_value s key),
          [Ev.write key (get_value s key), Ev.flush],
          RouteResult.failure (e.kind ++ ": " ++ e.descr))
    ∧ get_value (set_value s key (get_value s key)) key = get_value s key := by
  constructor
  · simp [set_key_value, hfail, hrestore, excMessage]
  · simp [get_value, set_value]

/-- A write oracle for the rollback witness: writing `"bad"` to
`"backup_count"` raises `ValueError: boom`; every other write succeeds. -/
def wRaisesBad : String → String → Option Exc :=
  fun k v =>
    if k = "backup_count" ∧ v = "bad" then some { kind := "ValueError", descr := "boom" }
    else none

/-- Witness for C2 at a concrete input: setting `"backup_count"` to `"bad"`
fails, the route reports `ValueError: boom`, and the key still reads
`"orig"`. -/
theorem set_key_value_rollback_on_failure_witness :
    set_key_value wRaisesBad wStore "backup_count" "bad"
      = Except.ok (set_value wStore "backup_count" (get_value wStore "backup_count"),
          [Ev.write "backup_count" (get_value wStore "backup_count"), Ev.flush],
          RouteResult.failure ("ValueError" ++ ": " ++ "boom"))
    ∧ get_value (set_value wStore "backup_count" (get_value wStore "backup_count"))
        "backup_count" = get_value wStore "backup_count" :=
  set_key_value_rollback_on_failure wRaisesBad wStore "backup_count" "bad"
    { kind := "ValueError", descr := "boom" } (by decide) (by decide)

/-- C3: when the underlying write succeeds, `set_key_value key value` reports
success and a subsequent `get_value` of the key returns `value`. -/
theorem set_key_value_then_get {V : Type}
    (raises : String → V → Option Exc) (s : Store V) (key : String) (value : V)
    (hok : raises key value = none) :
    set_key_value raises s key value
      = Except.ok (set_value s key value, [Ev.write key value, Ev.flush],
          RouteResult.success "OK")
    ∧ get_value (set_value s key value) key = value := by
  constructor
  · simp [set_key_value, hok]
  · simp [get_value, set_value]

/-- Witness for C3 at a concrete input: setting `"backup_count"` to `"5"`
succeeds and the key then reads `"5"`. -/
theorem set_key_value_then_get_witness :
    set_key_value wRaises wStore "backup_count" "5"
      = Except.ok (set_value wStore "backup_count" "5",
          [Ev.write "backup_count" "5", Ev.flush], RouteResult.success "OK")
    ∧ get_value (set_value wStore "backup_count" "5") "backup_count" = "5" :=
  set_key_value_then_get wRaises wStore "backup_count" "5" rfl

/-- C4: whenever `set_key_value` completes normally — on the success branch
and on the failure branch after the old value has been restored — its event
trace contains exactly one durable flush, and that flush is the last event. -/
theorem set_key_value_single_flush {V : Type}
    (raises : String → V → Option Exc) (s : Store V) (key : String) (value : V)
    (s2 : Store V) (tr : List (Ev V)) (r : RouteResult)
    (h : set_key_value raises s key value = Except.ok (s2, tr, r)) :
    (tr.filter Ev.isFlush).length = 1 ∧ tr.getLast? = some Ev.flush := by
  unfold set_key_value at h
  split at h
  · simp only [Except.ok.injEq, Prod.mk.injEq] at h
    obtain ⟨-, h2, -⟩ := h
    subst h2
    constructor <;> rfl
  · split at h
    · simp only [Except.ok.injEq, Prod.mk.injEq] at h
      obtain ⟨-, h2, -⟩ := h
      subst h2
      constructor <;> rfl
    · exact absurd h (by simp)

/-- Witness for C4 at a concrete input: the failure branch of
`set_key_value wRaisesBad wStore "backup_count" "bad"` flushes exactly once,
as its last event. -/
theorem set_key_value_single_flush_witness :
    (([Ev.write "backup_count" (get_value wStore "backup_count"),
        Ev.flush] : List (Ev String)).filter Ev.isFlush).length = 1
    ∧ ([Ev.write "backup_count" (get_value wStore "backup_count"),
        Ev.flush] : List (Ev String)).getLast? = some Ev.flush :=
  set_key_value_single_flush wRaisesBad wStore "backup_count" "bad"
    (set_value wStore "backup_count" (get_value wStore "backup_count"))
    [Ev.write "backup_count" (get_value wStore "backup_count"), Ev.flush]
    (RouteResult.failure ("ValueError" ++ ": " ++ "boom"))
    rfl

/-- A concrete registry: the `"japanese"` instance 0 exists and its current
variant is `"writing"`. -/
def regJpWriting : Registry :=
  { japanese := some 0, nextId := 1, variants := fun _ => "writing" }

/-- A concrete registry with no `"japanese"` instance constructed yet. -/
def regEmpty : Registry :=
  { japanese := none, nextId := 0, variants := fun _ => "spoken" }

/-- A concrete store whose `"unidic_types"` setting is `"spoken"`. -/
def storeSpoken : Store String := fun _ => "spoken"

/-- Counterexample to C5: the route's no-op guard compares the requested
variant to the stored `"unidic_types"` setting, not to the instance's current
variant. Here the instance's current variant is `"writing"` and `"writing"` is
requested, yet — because the stored setting is `"spoken"` — the route is not a
no-op: it performs a switch on the instance. -/
theorem setParser_switches_despite_current_variant :
    regJpWriting.japanese = some 0
    ∧ regJpWriting.variants 0 = "writing"
    ∧ (setParser storeSpoken regJpWriting "writing").2.1 = [PEv.switch 0 "writing"]
    ∧ (setParser storeSpoken regJpWriting "writing").2.1 ≠ ([] : List PEv) := by
  refine ⟨rfl, rfl, rfl, ?_⟩
  decide

/-- C5 as amended: when the requested variant equals the stored
`"unidic_types"` setting value, `setParser` is a no-op — registry untouched,
no construction or switch performed — and returns the requested variant
immediately. -/
theorem setParser_noop_when_matches_setting (s : Store String) (reg : Registry)
    (v : String) (h : v = get_value s "unidic_types") :
    setParser s reg v = (reg, [], v) := by
  simp [setParser, h]

/-- Witness for amended C5 at a concrete input: requesting `"spoken"` while
the setting is `"spoken"` leaves the registry untouched with an empty effect
trace. -/
theorem setParser_noop_when_matches_setting_witness :
    setParser storeSpoken regJpWriting "spoken" = (regJpWriting, [], "spoken") :=
  setParser_noop_when_matches_setting storeSpoken regJpWriting "spoken" rfl

/-- Counterexample to C6: invoked for a name with no constructed instance but
with the requested variant equal to the stored setting, the route returns
before any lazy construction — afterwards the registry still holds no
instance, and no construction or switch was performed. -/
theorem setParser_skips_construction_when_setting_matches :
    regEmpty.japanese = none
    ∧ setParser storeSpoken regEmpty "spoken" = (regEmpty, [], "spoken")
    ∧ (setParser storeSpoken regEmpty "spoken").1.japanese = none := by
  refine ⟨rfl, ?_, rfl⟩
  simp [setParser, storeSpoken, get_value]

/-- C6 as amended: when the requested variant differs from the stored
`"unidic_types"` setting, `setParser` lazily constructs the `"japanese"`
instance first if none exists (construction strictly before the switch in the
effect trace), then tells the instance to switch its variant in place; when an
instance already exists, that same instance is switched and the registry maps
the name to the same instance before and after — it is never replaced. -/
theorem setParser_constructs_then_switches_in_place (s : Store String)
    (reg : Registry) (v : String) (h : v ≠ get_value s "unidic_types") :
    (reg.japanese = none →
        (setParser s reg v).2.1 = [PEv.construct reg.nextId, PEv.switch reg.nextId v]
        ∧ (setParser s reg v).1.japanese = some reg.nextId)
    ∧ (∀ i, reg.japanese = some i →
        (setParser s reg v).2.1 = [PEv.switch i v]
        ∧ (setParser s reg v).1.japanese = some i) := by
  constructor
  · intro hn
    rw [setParser, if_neg h, hn]
    exact ⟨rfl, rfl⟩
  · intro i hi
    rw [setParser, if_neg h, hi]
    exact ⟨rfl, rfl⟩

/-- Witness for amended C6 at a concrete input: requesting `"writing"` while
the setting is `"spoken"` switches the existing instance 0 in place and keeps
it in the registry. -/
theorem setParser_constructs_then_switches_in_place_witness :
    (setParser storeSpoken regJpWriting "writing").2.1 = [PEv.switch 0 "writing"]
    ∧ (setParser storeSpoken regJpWriting "writing").1.japanese = some 0 :=
  (setParser_constructs_then_switches_in_place storeSpoken regJpWriting "writing"
    (by decide)).2 0 rfl

/-- C7: the backup-directory validator accepts `backup_enabled = false` with
an empty `backup_dir`; with `backup_enabled = true` it rejects an empty
directory, rejects a relative path with a message suggesting the absolute
equivalent, rejects a nonexistent path, and rejects an existing path that is
not a directory. -/
theorem validate_backup_dir_spec (abspath : String → String)
    (path_exists is_directory : String → Bool) (v : String) :
    validate_backup_dir abspath path_exists is_directory false "" = ValidationResult.ok
    ∧ validate_backup_dir abspath path_exists is_directory true ""
        = ValidationResult.error "Backup directory required"
    ∧ (pyStrip v ≠ "" → v ≠ abspath v →
        validate_backup_dir abspath path_exists is_directory true v
          = ValidationResult.error
              ("Backup dir must be absolute path.  Did you mean \"" ++ abspath v ++ "\"?"))
    ∧ (pyStrip v ≠ "" → v = abspath v → path_exists v = false →
        validate_backup_dir abspath path_exists is_directory true v
          = ValidationResult.error ("Directory \"" ++ v ++ "\" does not exist."))
    ∧ (pyStrip v ≠ "" → v = abspath v → path_exists v = true → is_directory v = false →
        validate_backup_dir abspath path_exists is_directory true v
          = ValidationResult.error ("\"" ++ v ++ "\" is not a directory.")) := by
  refine ⟨rfl, by simp [validate_backup_dir, pyStrip], ?_, ?_, ?_⟩
  · intro h1 h2
    simp [validate_backup_dir, h1, h2]
  · intro h1 h2 h3
    simp [validate_backup_dir, h1, h2.symm, h3]
  · intro h1 h2 h3 h4
    simp [validate_backup_dir, h1, h2.symm, h3, h4]

/-- A filesystem model for the C7 witness: `os.path.abspath` maps the relative
path `"backups"` to `"/abs/backups"` and fixes every other path;
`"/data/backups"` and `"/data/afile"` exist; only `"/data/backups"` is a
directory. -/
def wAbspath : String → String := fun p => if p = "backups" then "/abs/backups" else p

/-- Existence model for the C7 witness. -/
def wPathExists : String → Bool := fun p => p == "/data/backups" || p == "/data/afile"

/-- Directory model for the C7 witness. -/
def wIsDirectory : String → Bool := fun p => p == "/data/backups"

/-- Witness for C7 at concrete inputs: each rejection branch is exercised on
the concrete filesystem model, and the disabled-with-empty case is accepted. -/
theorem validate_backup_dir_spec_witness :
    validate_backup_dir wAbspath wPathExists wIsDirectory false "" = ValidationResult.ok
    ∧ validate_backup_dir wAbspath wPathExists wIsDirectory true ""
        = ValidationResult.error "Backup directory required"
    ∧ validate_backup_dir wAbspath wPathExists wIsDirectory true "backups"
        = ValidationResult.error
            ("Backup dir must be absolute path.  Did you mean \"" ++ wAbspath "backups" ++ "\"?")
    ∧ validate_backup_dir wAbspath wPathExists wIsDirectory true "/nope"
        = ValidationResult.error ("Directory \"" ++ "/nope" ++ "\" does not exist.")
    ∧ validate_backup_dir wAbspath wPathExists wIsDirectory true "/data/afile"
        = ValidationResult.error ("\"" ++ "/data/afile" ++ "\" is not a directory.") :=
  ⟨(validate_backup_dir_spec wAbspath wPathExists wIsDirectory "").1,
   (validate_backup_dir_spec wAbspath wPathExists wIsDirectory "").2.1,
   (validate_backup_dir_spec wAbspath wPathExists wIsDirectory "backups").2.2.1
     (by decide) (by decide),
   (validate_backup_dir_spec wAbspath wPathExists wIsDirectory "/nope").2.2.2.1
     (by decide) (by decide) (by decide),
   (validate_backup_dir_spec wAbspath wPathExists wIsDirectory "/data/afile").2.2.2.2
     (by decide) (by decide) (by decide) (by decide)⟩

/-- Unfolding lemma for `apply_fields`: when no retained field's write raises,
the loop writes exactly the fields whose id is neither `"csrf_token"` nor
`"submit"`, in form order, and appends the single commit. -/
lemma apply_fields_ok {V : Type} (raises : String → V → Option Exc) :
    ∀ (form : List (String × V)) (s : Store V) (tr : List (Ev V)),
    (∀ p ∈ form, ¬(p.1 = "csrf_token" ∨ p.1 = "submit") → raises p.1 p.2 = none) →
    apply_fields raises form s tr
      = Except.ok
          ((form.filter (fun p => decide (¬(p.1 = "csrf_token" ∨ p.1 = "submit")))).foldl
              (fun st p => set_value st p.1 p.2) s,
            tr ++ (form.filter
                (fun p => decide (¬(p.1 = "csrf_token" ∨ p.1 = "submit")))).map
                (fun p => Ev.write p.1 p.2)
              ++ [Ev.flush]) := by
  intro form
  induction form with
  | nil => intro s tr _; simp [apply_fields]
  | cons p rest ih =>
      intro s tr h
      obtain ⟨k, v⟩ := p
      by_cases hskip : k = "csrf_token" ∨ k = "submit"
      · have := ih s tr (fun q hq => h q (List.mem_cons_of_mem _ hq))
        simp only [apply_fields, if_pos hskip, this, List.filter_cons]
        simp [hskip]
      · have hk : raises k v = none := h (k, v) (List.mem_cons_self _ _) hskip
        have := ih (set_value s k v) (tr ++ [Ev.write k v])
          (fun q hq => h q (List.mem_cons_of_mem _ hq))
        simp only [apply_fields, if_neg hskip, hk, this, List.filter_cons]
        simp [hskip]

/-- Events of the form `Ev.write …` are never the durable flush. -/
lemma filter_isFlush_writes {V : Type} (l : List (String × V)) :
    (l.map (fun p => Ev.write p.1 p.2)).filter Ev.isFlush = ([] : List (Ev V)) := by
  induction l with
  | nil => rfl
  | cons p r ih => simp [List.filter_cons, Ev.isFlush, ih]

/-- C8: in the bulk apply mode, when no retained field's write raises, every
form field except the csrf token and the submit control is written to the
store in form order, and exactly one durable flush happens, after all the
writes (it is the final event of the trace); every retained pair's write
appears in the trace. -/
theorem edit_settings_bulk_writes_then_single_flush {V : Type}
    (raises : String → V → Option Exc) (form : List (String × V)) (s : Store V)
    (hok : ∀ p ∈ form, ¬(p.1 = "csrf_token" ∨ p.1 = "submit") →
      raises p.1 p.2 = none) :
    edit_settings_apply raises form s
      = Except.ok
          ((form.filter (fun p => decide (¬(p.1 = "csrf_token" ∨ p.1 = "submit")))).foldl
              (fun st p => set_value st p.1 p.2) s,
            (form.filter (fun p => decide (¬(p.1 = "csrf_token" ∨ p.1 = "submit")))).map
                (fun p => Ev.write p.1 p.2)
              ++ [Ev.flush])
    ∧ ((((form.filter
            (fun (p : String × V) => decide (¬(p.1 = "csrf_token" ∨ p.1 = "submit")))).map
            (fun (p : String × V) => Ev.write p.1 p.2)
          ++ [Ev.flush]).filter Ev.isFlush).length = 1)
    ∧ (((form.filter
            (fun (p : String × V) => decide (¬(p.1 = "csrf_token" ∨ p.1 = "submit")))).map
            (fun (p : String × V) => Ev.write p.1 p.2)
          ++ [Ev.flush]).getLast? = some Ev.flush)
    ∧ (∀ p ∈ form, ¬(p.1 = "csrf_token" ∨ p.1 = "submit") →
        Ev.write p.1 p.2
          ∈ (form.filter
                (fun (p : String × V) => decide (¬(p.1 = "csrf_token" ∨ p.1 = "submit")))).map
                (fun (p : String × V) => Ev.write p.1 p.2)
              ++ [Ev.flush]) := by
  refine ⟨?_, ?_, ?_, ?_⟩
  · have := apply_fields_ok raises form s [] hok
    simpa [edit_settings_apply] using this
  · simp [List.filter_append, filter_isFlush_writes, Ev.isFlush]
  · simp [List.getLast?_concat]
  · intro p hp hkeep
    refine List.mem_append_left _ ?_
    exact List.mem_map_of_mem _ (List.mem_filter.mpr ⟨hp, by simpa using hkeep⟩)

/-- A concrete validated form for the C8 witness: a csrf token and two
settings fields. -/
def wForm : List (String × String) :=
  [("csrf_token", "tok"), ("backup_count", "5"), ("current_theme", "dark")]

/-- Witness for C8 at a concrete input: applying `wForm` writes the two
settings fields in order and then flushes once. -/
theorem edit_settings_bulk_writes_then_single_flush_witness :
    edit_settings_apply wRaises wForm wStore
      = Except.ok
          ((wForm.filter (fun p => decide (¬(p.1 = "csrf_token" ∨ p.1 = "submit")))).foldl
              (fun st p => set_value st p.1 p.2) wStore,
            (wForm.filter (fun p => decide (¬(p.1 = "csrf_token" ∨ p.1 = "submit")))).map
                (fun p => Ev.write p.1 p.2)
              ++ [Ev.flush])
    ∧ Ev.write "backup_count" "5"
        ∈ (wForm.filter (fun p => decide (¬(p.1 = "csrf_token" ∨ p.1 = "submit")))).map
              (fun p => Ev.write p.1 p.2)
            ++ [Ev.flush] :=
  ⟨(edit_settings_bulk_writes_then_single_flush wRaises wForm wStore
      (fun _ _ _ => rfl)).1,
   (edit_settings_bulk_writes_then_single_flush wRaises wForm wStore
      (fun _ _ _ => rfl)).2.2.2 ("backup_count", "5") (by decide) (by decide)⟩

/-- C9: whenever `test_parse` completes, its result is a success or failure
payload with a message: on probe success the message reports the tokens the
probe produced (the paragraph markers filtered out, joined with `", "`), and
on failure — of the probe or of the tentative write — the message is the error
kind and its description. -/
theorem test_parse_result_messages {V : Type} (raises : String → V → Option Exc)
    (probe : Store V → Except Exc (List Token)) (s : Store V) (mp : V)
    (s2 : Store V) (tr : List (Ev V)) (r : RouteResult)
    (h : test_parse raises probe s mp = Except.ok (s2, tr, r)) :
    (∀ toks, raises "mecab_path" mp = none →
        probe (set_value s "mecab_path" mp) = Except.ok toks →
        r = RouteResult.success (src_sentence ++ " parsed to ["
              ++ String.intercalate ", "
                  ((toks.filter (fun t => t.token != "¶")).map Token.token)
              ++ "]"))
    ∧ (∀ e, raises "mecab_path" mp = none →
        probe (set_value s "mecab_path" mp) = Except.error e →
        r = RouteResult.failure (e.kind ++ ": " ++ e.descr))
    ∧ (∀ e, raises "mecab_path" mp = some e →
        r = RouteResult.failure (e.kind ++ ": " ++ e.descr)) := by
  unfold test_parse at h
  split at h
  · exact absurd h (by simp)
  · simp only [Except.ok.injEq, Prod.mk.injEq] at h
    obtain ⟨-, -, h3⟩ := h
    subst h3
    refine ⟨?_, ?_, ?_⟩
    · intro toks hset hprobe
      simp [try_block, hset, hprobe]
    · intro e hset hprobe
      simp [try_block, hset, hprobe, excMessage]
    · intro e hset
      simp [try_block, hset, excMessage]

/-- Witness for C9 at a concrete input: the probe produces `私` and `¶`, and
the reported success message is `私は元気です parsed to [私]`. -/
theorem test_parse_result_messages_witness :
    RouteResult.success (src_sentence ++ " parsed to [私]")
      = RouteResult.success (src_sentence ++ " parsed to ["
          ++ String.intercalate ", "
              ((([{ token := "私" }, { token := "¶" }] : List Token).filter
                  (fun t => t.token != "¶")).map Token.token)
          ++ "]") :=
  (test_parse_result_messages wRaises wProbe wStore "cand"
      (set_value (set_value wStore "mecab_path" "cand") "mecab_path" "orig")
      [Ev.write "mecab_path" "cand", Ev.write "mecab_path" "orig"]
      (RouteResult.success (src_sentence ++ " parsed to [私]")) rfl).1
    [{ token := "私" }, { token := "¶" }] rfl rfl

/-- Filtering the paragraph marker commutes with reading the surface text:
dropping the tokens whose text is `"¶"` and then taking the texts equals
taking all the texts and dropping the `"¶"` entries. -/
lemma filter_marker_map_token (toks : List Token) :
    (toks.filter (fun t => t.token != "¶")).map Token.token
      = (toks.map Token.token).filter (fun x => x != "¶") := by
  induction toks with
  | nil => rfl
  | cons t ts ih =>
      by_cases h : t.token = "¶"
      · simp [List.filter_cons, h, ih]
      · simp [List.filter_cons, h, ih]

/-- C10: on probe success the reported token list is exactly the produced
surface texts with every `"¶"` (paragraph-boundary) entry removed, in
production order: no reported entry is `"¶"`, every other produced text is
reported, and the reported list is a sublist (order-preserving) of the
produced texts. -/
theorem test_parse_filters_paragraph_markers {V : Type}
    (raises : String → V → Option Exc) (probe : Store V → Except Exc (List Token))
    (s : Store V) (mp : V) (toks : List Token)
    (s2 : Store V) (tr : List (Ev V)) (r : RouteResult)
    (h : test_parse raises probe s mp = Except.ok (s2, tr, r))
    (hset : raises "mecab_path" mp = none)
    (hprobe : probe (set_value s "mecab_path" mp) = Except.ok toks) :
    r = RouteResult.success (src_sentence ++ " parsed to ["
          ++ String.intercalate ", " ((toks.map Token.token).filter (fun x => x != "¶"))
          ++ "]")
    ∧ (∀ x ∈ (toks.map Token.token).filter (fun x => x != "¶"), x ≠ "¶")
    ∧ (∀ x ∈ toks.map Token.token, x ≠ "¶" →
        x ∈ (toks.map Token.token).filter (fun x => x != "¶"))
    ∧ ((toks.map Token.token).filter (fun x => x != "¶")).Sublist
        (toks.map Token.token) := by
  refine ⟨?_, ?_, ?_, List.filter_sublist _⟩
  · unfold test_parse at h
    split at h
    · exact absurd h (by simp)
    · simp only [Except.ok.injEq, Prod.mk.injEq] at h
      obtain ⟨-, -, h3⟩ := h
      subst h3
      simp [try_block, hset, hprobe, filter_marker_map_token]
  · intro x hx
    simpa using (List.mem_filter.mp hx).2
  · intro x hx hne
    exact List.mem_filter.mpr ⟨hx, by simpa using hne⟩

/-- Witness for C10 at a concrete input: tokens `私`, `¶`, `は` are reported
as `[私, は]` — the marker dropped, the rest in order. -/
theorem test_parse_filters_paragraph_markers_witness :
    RouteResult.success (src_sentence ++ " parsed to [私, は]")
      = RouteResult.success (src_sentence ++ " parsed to ["
          ++ String.intercalate ", "
              ((([{ token := "私" }, { token := "¶" }, { token := "は" }]
                  : List Token).map Token.token).filter (fun x => x != "¶"))
          ++ "]")
    ∧ (([{ token := "私" }, { token := "¶" }, { token := "は" }]
          : List Token).map Token.token).filter (fun x => x != "¶")
        = (["私", "は"] : List String) :=
  ⟨(test_parse_filters_paragraph_markers wRaises
      (fun _ => Except.ok [{ token := "私" }, { token := "¶" }, { token := "は" }])
      wStore "cand" [{ token := "私" }, { token := "¶" }, { token := "は" }]
      (set_value (set_value wStore "mecab_path" "cand") "mecab_path" "orig")
      [Ev.write "mecab_path" "cand", Ev.write "mecab_path" "orig"]
      (RouteResult.success (src_sentence ++ " parsed to [私, は]"))
      rfl rfl rfl).1,
   by decide⟩

end LuteSettings
